import Mathlib

/-!
Verification of the ADM1→ASM1 translator block
(`watertap/unit_models/translator_adm1_asm1.py`).

The translator declares, for each time index, a fixed family of equality
constraints relating an inlet ADM1-style property state to an outlet
ASM1-style property state.  We embed property states as records over ℚ
(concentrations as a map from component name to value), the nitrogen
parameters as a record with their source default values, and each
constraint rule as a `Prop`-valued function carrying the source rule's
name.  Degrees-of-freedom and initialization sequencing are modelled
explicitly below.
-/

/-- An ADM1-style inlet property state at one time index: volumetric flow,
temperature, pressure, and a map from component name to mass concentration
(`conc_mass_comp`). -/
structure StateIn where
  flow_vol : ℚ
  temperature : ℚ
  pressure : ℚ
  conc_mass_comp : String → ℚ

/-- An ASM1-style outlet property state at one time index: volumetric flow,
temperature, pressure, alkalinity, and a map from component name to mass
concentration (`conc_mass_comp`). -/
structure StateOut where
  flow_vol : ℚ
  temperature : ℚ
  pressure : ℚ
  alkalinity : ℚ
  conc_mass_comp : String → ℚ

/-- The mutable nitrogen-content parameters declared in `build`. -/
structure Params where
  N_I : ℚ
  N_aa : ℚ
  N_bac : ℚ
  i_ec : ℚ

/-- Default parameter values from `build`: `N_I = 0.06/14`, `N_aa = 0.007`,
`N_bac = 0.08/14`, `i_ec = 0.06`. -/
def Params.default : Params :=
  { N_I := (6/100 : ℚ) / 14
    N_aa := 7/1000
    N_bac := (8/100 : ℚ) / 14
    i_ec := 6/100 }

/-- The `readily_biodegradable` component set from `build`. -/
def readily_biodegradable : List String :=
  ["S_su", "S_aa", "S_fa", "S_va", "S_bu", "S_pro", "S_ac"]

/-- The `slowly_biodegradable` component set from `build`. -/
def slowly_biodegradable : List String :=
  ["X_c", "X_ch", "X_pr", "X_li", "X_su", "X_aa", "X_fa", "X_c4", "X_pro",
   "X_ac", "X_h2"]

/-- The `zero_flow_components` set from `build`. -/
def zero_flow_components : List String :=
  ["X_BH", "X_BA", "X_P", "S_O", "S_NO"]

/-- A translator block: the parameters plus the inlet/outlet state blocks
indexed by the flowsheet's time set `T`. -/
structure TranslatorBlock (T : Type) where
  params : Params
  properties_in : T → StateIn
  properties_out : T → StateOut

namespace TranslatorBlock

variable {T : Type}

/-- `eq_flow_vol_rule`: outlet volumetric flow equals inlet volumetric flow. -/
def eq_flow_vol_rule (blk : TranslatorBlock T) (t : T) : Prop :=
  (blk.properties_out t).flow_vol = (blk.properties_in t).flow_vol

/-- `eq_temperature_rule`: outlet temperature equals inlet temperature. -/
def eq_temperature_rule (blk : TranslatorBlock T) (t : T) : Prop :=
  (blk.properties_out t).temperature = (blk.properties_in t).temperature

/-- `eq_pressure_rule`: outlet pressure equals inlet pressure. -/
def eq_pressure_rule (blk : TranslatorBlock T) (t : T) : Prop :=
  (blk.properties_out t).pressure = (blk.properties_in t).pressure

/-- `eq_SI_conc`: outlet `S_I` concentration equals inlet `S_I`. -/
def eq_SI_conc (blk : TranslatorBlock T) (t : T) : Prop :=
  (blk.properties_out t).conc_mass_comp "S_I"
    = (blk.properties_in t).conc_mass_comp "S_I"

/-- `eq_XI_conc`: outlet `X_I` concentration equals inlet `X_I`. -/
def eq_XI_conc (blk : TranslatorBlock T) (t : T) : Prop :=
  (blk.properties_out t).conc_mass_comp "X_I"
    = (blk.properties_in t).conc_mass_comp "X_I"

/-- `eq_SS_conc`: outlet `S_S` equals the sum of the inlet concentrations of
the `readily_biodegradable` components. -/
def eq_SS_conc (blk : TranslatorBlock T) (t : T) : Prop :=
  (blk.properties_out t).conc_mass_comp "S_S"
    = (readily_biodegradable.map
        (fun i => (blk.properties_in t).conc_mass_comp i)).sum

/-- `eq_XS_conc`: outlet `X_S` equals the sum of the inlet concentrations of
the `slowly_biodegradable` components. -/
def eq_XS_conc (blk : TranslatorBlock T) (t : T) : Prop :=
  (blk.properties_out t).conc_mass_comp "X_S"
    = (slowly_biodegradable.map
        (fun i => (blk.properties_in t).conc_mass_comp i)).sum

/-- `eq_Snh_conc`: outlet `S_NH` equals inlet `S_IN`. -/
def eq_Snh_conc (blk : TranslatorBlock T) (t : T) : Prop :=
  (blk.properties_out t).conc_mass_comp "S_NH"
    = (blk.properties_in t).conc_mass_comp "S_IN"

/-- `eq_Snd_conc`: outlet `S_ND` equals `S_I·N_I + S_I·N_aa`. -/
def eq_Snd_conc (blk : TranslatorBlock T) (t : T) : Prop :=
  (blk.properties_out t).conc_mass_comp "S_ND"
    = (blk.properties_in t).conc_mass_comp "S_I" * blk.params.N_I
      + (blk.properties_in t).conc_mass_comp "S_I" * blk.params.N_aa

/-- `eq_Xnd_conc`: outlet `X_ND` equals
`N_bac·(X_su+X_aa+X_fa+X_c4+X_pro+X_ac+X_h2) + X_I·N_I + X_c·N_I + X_pr·N_aa
 − X_I·N_I·i_ec`. -/
def eq_Xnd_conc (blk : TranslatorBlock T) (t : T) : Prop :=
  (blk.properties_out t).conc_mass_comp "X_ND"
    = blk.params.N_bac
        * ((blk.properties_in t).conc_mass_comp "X_su"
          + (blk.properties_in t).conc_mass_comp "X_aa"
          + (blk.properties_in t).conc_mass_comp "X_fa"
          + (blk.properties_in t).conc_mass_comp "X_c4"
          + (blk.properties_in t).conc_mass_comp "X_pro"
          + (blk.properties_in t).conc_mass_comp "X_ac"
          + (blk.properties_in t).conc_mass_comp "X_h2")
      + (blk.properties_in t).conc_mass_comp "X_I" * blk.params.N_I
      + (blk.properties_in t).conc_mass_comp "X_c" * blk.params.N_I
      + (blk.properties_in t).conc_mass_comp "X_pr" * blk.params.N_aa
      - (blk.properties_in t).conc_mass_comp "X_I" * blk.params.N_I
          * blk.params.i_ec

/-- `return_Salk`: outlet alkalinity equals inlet `S_IC`. -/
def return_Salk (blk : TranslatorBlock T) (t : T) : Prop :=
  (blk.properties_out t).alkalinity
    = (blk.properties_in t).conc_mass_comp "S_IC"

/-- `return_zero_flow_comp`: for a component of `zero_flow_components`, the
outlet concentration equals the constant `1e-6`. -/
def return_zero_flow_comp (blk : TranslatorBlock T) (t : T) (i : String) :
    Prop :=
  (blk.properties_out t).conc_mass_comp i = 1/1000000

/-- All constraints declared by `build`, each for every time index (and, for
`return_zero_flow_comp`, for every component of `zero_flow_components`). -/
def build_constraints (blk : TranslatorBlock T) : Prop :=
  (∀ t, blk.eq_flow_vol_rule t)
  ∧ (∀ t, blk.eq_temperature_rule t)
  ∧ (∀ t, blk.eq_pressure_rule t)
  ∧ (∀ t, blk.eq_SI_conc t)
  ∧ (∀ t, blk.eq_XI_conc t)
  ∧ (∀ t, blk.eq_SS_conc t)
  ∧ (∀ t, blk.eq_XS_conc t)
  ∧ (∀ t, blk.eq_Snh_conc t)
  ∧ (∀ t, blk.eq_Snd_conc t)
  ∧ (∀ t, blk.eq_Xnd_conc t)
  ∧ (∀ t, blk.return_Salk t)
  ∧ (∀ t, ∀ i ∈ zero_flow_components, blk.return_zero_flow_comp t i)

end TranslatorBlock

/-- Outlet concentration map solved from the constraints: each constrained
component is assigned the value its constraint forces; unconstrained
components default to `0`. -/
def translate_conc (p : Params) (s : StateIn) : String → ℚ := fun i =>
  if i = "S_I" then s.conc_mass_comp "S_I"
  else if i = "X_I" then s.conc_mass_comp "X_I"
  else if i = "S_S" then
    (readily_biodegradable.map (fun j => s.conc_mass_comp j)).sum
  else if i = "X_S" then
    (slowly_biodegradable.map (fun j => s.conc_mass_comp j)).sum
  else if i = "S_NH" then s.conc_mass_comp "S_IN"
  else if i = "S_ND" then
    s.conc_mass_comp "S_I" * p.N_I + s.conc_mass_comp "S_I" * p.N_aa
  else if i = "X_ND" then
    p.N_bac
      * (s.conc_mass_comp "X_su" + s.conc_mass_comp "X_aa"
        + s.conc_mass_comp "X_fa" + s.conc_mass_comp "X_c4"
        + s.conc_mass_comp "X_pro" + s.conc_mass_comp "X_ac"
        + s.conc_mass_comp "X_h2")
      + s.conc_mass_comp "X_I" * p.N_I + s.conc_mass_comp "X_c" * p.N_I
      + s.conc_mass_comp "X_pr" * p.N_aa
      - s.conc_mass_comp "X_I" * p.N_I * p.i_ec
  else if i ∈ zero_flow_components then 1/1000000
  else 0

/-- The outlet state solved from the constraints for a given inlet state. -/
def translate_state (p : Params) (s : StateIn) : StateOut :=
  { flow_vol := s.flow_vol
    temperature := s.temperature
    pressure := s.pressure
    alkalinity := s.conc_mass_comp "S_IC"
    conc_mass_comp := translate_conc p s }

/-- A translator block whose outlet is solved from its inlet. -/
def solvedBlock (p : Params) (sin : StateIn) : TranslatorBlock Unit :=
  { params := p
    properties_in := fun _ => sin
    properties_out := fun _ => translate_state p sin }

theorem solvedBlock_satisfies (p : Params) (sin : StateIn) :
    (solvedBlock p sin).build_constraints := by
  refine ⟨fun t => ?_, fun t => ?_, fun t => ?_, fun t => ?_, fun t => ?_,
    fun t => ?_, fun t => ?_, fun t => ?_, fun t => ?_, fun t => ?_,
    fun t => ?_, fun t i hi => ?_⟩ <;>
    simp only [TranslatorBlock.eq_flow_vol_rule, TranslatorBlock.eq_temperature_rule,
      TranslatorBlock.eq_pressure_rule, TranslatorBlock.eq_SI_conc,
      TranslatorBlock.eq_XI_conc, TranslatorBlock.eq_SS_conc,
      TranslatorBlock.eq_XS_conc, TranslatorBlock.eq_Snh_conc,
      TranslatorBlock.eq_Snd_conc, TranslatorBlock.eq_Xnd_conc,
      TranslatorBlock.return_Salk, TranslatorBlock.return_zero_flow_comp,
      solvedBlock, translate_state]
  all_goals try (simp [translate_conc]; done)
  fin_cases hi <;> simp [translate_conc, zero_flow_components]

/-- A concrete inlet state with every concentration equal to `1`. -/
def sampleIn : StateIn :=
  { flow_vol := 1, temperature := 298, pressure := 101325
    conc_mass_comp := fun _ => 1 }

/-- A concrete solved block at the default parameters and `sampleIn`. -/
def sampleBlk : TranslatorBlock Unit := solvedBlock Params.default sampleIn

/-! ### Configuration validation

`CONFIG` declares `dynamic` with `domain=In([False]), default=False` and
`has_holdup` with `domain=In([False]), default=False`.  The `In` domain
validator accepts a value precisely when it is a member of the allowed
list; a value outside the domain makes the configuration system raise an
error. -/

/-- Pyomo's `In` domain validator over booleans: membership in the allowed
list. -/
def inDomain (allowed : List Bool) (v : Bool) : Bool :=
  allowed.contains v

/-- The `dynamic` option's domain check: `In([False])`. -/
def dynamic_domain (v : Bool) : Bool := inDomain [false] v

/-- The `has_holdup` option's domain check: `In([False])`. -/
def has_holdup_domain (v : Bool) : Bool := inDomain [false] v

/-- The `dynamic` option's default: `False`. -/
def dynamic_default : Bool := false

/-- The `has_holdup` option's default: `False`. -/
def has_holdup_default : Bool := false

/-- Configuration validation of the `dynamic`/`has_holdup` pair: accepted
exactly when both domain checks pass (otherwise a configuration error is
raised at build time). -/
def config_accepts (dynamic has_holdup : Bool) : Bool :=
  dynamic_domain dynamic && has_holdup_domain has_holdup

/-! ### Initialization sequencing

`initialize_build` is modelled as the trace of externally visible actions
it performs, as a function of the degrees of freedom found after the two
state-block initializations and of the status the solver would return.
The Python method is straight-line code with a single `if`: it always
returns normally, so the model is a total function. -/

/-- Result status of the external solver's `solve` call. -/
inductive SolverStatus where
  | optimal
  | infeasible
  | maxIterations
  deriving DecidableEq, Repr

/-- The externally visible actions of `initialize_build`, in order. -/
inductive InitEvent where
  /-- `properties_in.initialize(..., hold_state=True)` returning the flags. -/
  | inlet_init_hold
  /-- `properties_out.initialize(...)`. -/
  | outlet_init
  /-- `opt.solve(blk, ...)`. -/
  | solve_call
  /-- `init_log.info("Initialization Complete {status}")`. -/
  | log_info (status : SolverStatus)
  /-- `init_log.warning("Initialization incomplete. Degrees of freedom ...")`. -/
  | log_warning
  /-- `properties_in.release_state(flags=flags, ...)`. -/
  | release_state
  deriving DecidableEq, Repr

/-- Trace of `initialize_build`: initialize the inlet block holding its
state, initialize the outlet block, then either solve once and log the
solver's status (when `degrees_of_freedom(blk) == 0`) or log the
insufficient-constraints warning; finally release the inlet state flags. -/
def init_build (dof : ℕ) (solve_result : SolverStatus) : List InitEvent :=
  [InitEvent.inlet_init_hold, InitEvent.outlet_init]
    ++ (if dof = 0 then
          [InitEvent.solve_call, InitEvent.log_info solve_result]
        else
          [InitEvent.log_warning])
    ++ [InitEvent.release_state]

/-- Count of `solve_call` events in a trace. -/
def solveCount (tr : List InitEvent) : ℕ :=
  tr.count InitEvent.solve_call

/-! ### Degrees of freedom

With the inlet state fully specified, the free outlet quantities are
exactly the quantities the constraints mention: flow, temperature,
pressure, alkalinity and the twelve constrained outlet components.  Zero
degrees of freedom means the constraint system determines them uniquely. -/

/-- The outlet components mentioned by the constraints declared in `build`. -/
def asm1_mentioned_components : List String :=
  ["S_I", "X_I", "S_S", "X_S", "S_NH", "S_ND", "X_ND",
   "X_BH", "X_BA", "X_P", "S_O", "S_NO"]

/-- The tuple of outlet quantities mentioned by the constraints. -/
def outlet_signature (s : StateOut) : ℚ × ℚ × ℚ × ℚ × List ℚ :=
  (s.flow_vol, s.temperature, s.pressure, s.alkalinity,
    asm1_mentioned_components.map s.conc_mass_comp)

/-- The constraint system of `build` viewed as a relation between one inlet
state and one outlet state (a single-time-index block). -/
def constrained_outlet (p : Params) (sin : StateIn) (sout : StateOut) : Prop :=
  TranslatorBlock.build_constraints
    { params := p
      properties_in := fun _ : Unit => sin
      properties_out := fun _ => sout }

/-! ### Claims -/

/-- C1: for every time index `t`, the constraints equate the outlet state's
`flow_vol`, `temperature` and `pressure` to the inlet state's exactly. -/
theorem C1_flow_temp_pressure_equality {T : Type} (blk : TranslatorBlock T)
    (t : T) (h : blk.build_constraints) :
    (blk.properties_out t).flow_vol = (blk.properties_in t).flow_vol
    ∧ (blk.properties_out t).temperature = (blk.properties_in t).temperature
    ∧ (blk.properties_out t).pressure = (blk.properties_in t).pressure :=
  ⟨h.1 t, h.2.1 t, h.2.2.1 t⟩

/-- Witness for C1 at a concrete solved block. -/
theorem C1_flow_temp_pressure_equality_witness :
    sampleBlk.build_constraints
    ∧ ((sampleBlk.properties_out ()).flow_vol
          = (sampleBlk.properties_in ()).flow_vol
      ∧ (sampleBlk.properties_out ()).temperature
          = (sampleBlk.properties_in ()).temperature
      ∧ (sampleBlk.properties_out ()).pressure
          = (sampleBlk.properties_in ()).pressure) :=
  ⟨solvedBlock_satisfies Params.default sampleIn,
    C1_flow_temp_pressure_equality sampleBlk ()
      (solvedBlock_satisfies Params.default sampleIn)⟩

/-- C2: for every time index `t`, the outlet `S_S` constraint equates
`S_S(outlet)` to the sum of the 7 inlet concentrations
`S_su, S_aa, S_fa, S_va, S_bu, S_pro, S_ac`, and the outlet `X_S`
constraint equates `X_S(outlet)` to the sum of the 11 inlet concentrations
`X_c, X_ch, X_pr, X_li, X_su, X_aa, X_fa, X_c4, X_pro, X_ac, X_h2`. -/
theorem C2_lumped_sums {T : Type} (blk : TranslatorBlock T) (t : T)
    (h : blk.build_constraints) :
    (blk.properties_out t).conc_mass_comp "S_S"
      = (blk.properties_in t).conc_mass_comp "S_su"
        + (blk.properties_in t).conc_mass_comp "S_aa"
        + (blk.properties_in t).conc_mass_comp "S_fa"
        + (blk.properties_in t).conc_mass_comp "S_va"
        + (blk.properties_in t).conc_mass_comp "S_bu"
        + (blk.properties_in t).conc_mass_comp "S_pro"
        + (blk.properties_in t).conc_mass_comp "S_ac"
    ∧ (blk.properties_out t).conc_mass_comp "X_S"
      = (blk.properties_in t).conc_mass_comp "X_c"
        + (blk.properties_in t).conc_mass_comp "X_ch"
        + (blk.properties_in t).conc_mass_comp "X_pr"
        + (blk.properties_in t).conc_mass_comp "X_li"
        + (blk.properties_in t).conc_mass_comp "X_su"
        + (blk.properties_in t).conc_mass_comp "X_aa"
        + (blk.properties_in t).conc_mass_comp "X_fa"
        + (blk.properties_in t).conc_mass_comp "X_c4"
        + (blk.properties_in t).conc_mass_comp "X_pro"
        + (blk.properties_in t).conc_mass_comp "X_ac"
        + (blk.properties_in t).conc_mass_comp "X_h2" := by
  have hSS := h.2.2.2.2.2.1 t
  have hXS := h.2.2.2.2.2.2.1 t
  simp only [TranslatorBlock.eq_SS_conc, readily_biodegradable,
    TranslatorBlock.eq_XS_conc, slowly_biodegradable, List.map_cons,
    List.map_nil, List.sum_cons, List.sum_nil] at hSS hXS
  constructor
  · rw [hSS]; ring
  · rw [hXS]; ring

/-- Witness for C2 at a concrete solved block. -/
theorem C2_lumped_sums_witness :
    sampleBlk.build_constraints
    ∧ (sampleBlk.properties_out ()).conc_mass_comp "S_S" = 7
    ∧ (sampleBlk.properties_out ()).conc_mass_comp "X_S" = 11 := by
  have h := solvedBlock_satisfies Params.default sampleIn
  have h2 := C2_lumped_sums sampleBlk () h
  refine ⟨h, ?_, ?_⟩
  · rw [h2.1]; norm_num [sampleBlk, solvedBlock, sampleIn]
  · rw [h2.2]; norm_num [sampleBlk, solvedBlock, sampleIn]

/-- C3: for every time index `t` and every component of
`zero_flow_components` (`X_BH`, `X_BA`, `X_P`, `S_O`, `S_NO`), the
constraint fixes the outlet concentration to the constant `1e-6`; the
inlet state (quantified arbitrarily here) plays no role. -/
theorem C3_zero_flow_floor {T : Type} (blk : TranslatorBlock T) (t : T)
    (i : String) (hi : i ∈ zero_flow_components)
    (h : blk.build_constraints) :
    (blk.properties_out t).conc_mass_comp i = 1/1000000 :=
  h.2.2.2.2.2.2.2.2.2.2.2 t i hi

/-- Witness for C3 at a concrete solved block and the component `X_BH`. -/
theorem C3_zero_flow_floor_witness :
    "X_BH" ∈ zero_flow_components
    ∧ sampleBlk.build_constraints
    ∧ (sampleBlk.properties_out ()).conc_mass_comp "X_BH" = 1/1000000 :=
  ⟨by simp [zero_flow_components],
    solvedBlock_satisfies Params.default sampleIn,
    C3_zero_flow_floor sampleBlk () "X_BH" (by simp [zero_flow_components])
      (solvedBlock_satisfies Params.default sampleIn)⟩

/-- C4: for every time index `t`, the `S_ND` constraint equates
`S_ND(outlet)` to `S_I(inlet)·(N_I + N_aa)`; moreover at the default
parameters (`N_I = 0.06/14`, `N_aa = 0.007`) and an inlet with `S_I = 1`,
the constrained value is `0.06/14 + 0.007`, within `1e-6` of `0.011286`. -/
theorem C4_Snd_nitrogen_balance {T : Type} (blk : TranslatorBlock T) (t : T)
    (h : blk.build_constraints) :
    (blk.properties_out t).conc_mass_comp "S_ND"
      = (blk.properties_in t).conc_mass_comp "S_I"
          * (blk.params.N_I + blk.params.N_aa)
    ∧ (blk.params = Params.default →
        (blk.properties_in t).conc_mass_comp "S_I" = 1 →
        (blk.properties_out t).conc_mass_comp "S_ND"
            = (6/100 : ℚ) / 14 + 7/1000
        ∧ |(blk.properties_out t).conc_mass_comp "S_ND" - 11286/1000000|
            < 1/1000000) := by
  have hSnd := h.2.2.2.2.2.2.2.2.1 t
  simp only [TranslatorBlock.eq_Snd_conc] at hSnd
  constructor
  · rw [hSnd]; ring
  · intro hp hSI
    rw [hSnd, hp, hSI]
    refine ⟨by norm_num [Params.default], ?_⟩
    rw [abs_sub_lt_iff]
    constructor <;> norm_num [Params.default]

/-- Witness for C4 at the default parameters and a unit `S_I` inlet. -/
theorem C4_Snd_nitrogen_balance_witness :
    sampleBlk.build_constraints
    ∧ sampleBlk.params = Params.default
    ∧ (sampleBlk.properties_in ()).conc_mass_comp "S_I" = 1
    ∧ (sampleBlk.properties_out ()).conc_mass_comp "S_ND"
        = (6/100 : ℚ) / 14 + 7/1000
    ∧ |(sampleBlk.properties_out ()).conc_mass_comp "S_ND" - 11286/1000000|
        < 1/1000000 := by
  have h := solvedBlock_satisfies Params.default sampleIn
  have h4 := (C4_Snd_nitrogen_balance sampleBlk () h).2 rfl rfl
  exact ⟨h, rfl, rfl, h4.1, h4.2⟩

/-- C5: for every time index `t`, the `X_ND` constraint equates
`X_ND(outlet)` to
`N_bac·(X_su+X_aa+X_fa+X_c4+X_pro+X_ac+X_h2) + N_I·X_I + N_I·X_c
 + N_aa·X_pr − X_I·N_I·i_ec` over the inlet concentrations. -/
theorem C5_Xnd_nitrogen_balance {T : Type} (blk : TranslatorBlock T) (t : T)
    (h : blk.build_constraints) :
    (blk.properties_out t).conc_mass_comp "X_ND"
      = blk.params.N_bac
          * ((blk.properties_in t).conc_mass_comp "X_su"
            + (blk.properties_in t).conc_mass_comp "X_aa"
            + (blk.properties_in t).conc_mass_comp "X_fa"
            + (blk.properties_in t).conc_mass_comp "X_c4"
            + (blk.properties_in t).conc_mass_comp "X_pro"
            + (blk.properties_in t).conc_mass_comp "X_ac"
            + (blk.properties_in t).conc_mass_comp "X_h2")
        + blk.params.N_I * (blk.properties_in t).conc_mass_comp "X_I"
        + blk.params.N_I * (blk.properties_in t).conc_mass_comp "X_c"
        + blk.params.N_aa * (blk.properties_in t).conc_mass_comp "X_pr"
        - (blk.properties_in t).conc_mass_comp "X_I" * blk.params.N_I
            * blk.params.i_ec := by
  have hXnd := h.2.2.2.2.2.2.2.2.2.1 t
  simp only [TranslatorBlock.eq_Xnd_conc] at hXnd
  rw [hXnd]; ring

/-- Witness for C5 at a concrete solved block (all inlet concentrations
`1`, default parameters): the constrained value is
`7·(0.08/14) + 2·(0.06/14) + 0.007 − (0.06/14)·0.06`. -/
theorem C5_Xnd_nitrogen_balance_witness :
    sampleBlk.build_constraints
    ∧ (sampleBlk.properties_out ()).conc_mass_comp "X_ND"
        = 7 * ((8/100 : ℚ)/14) + 2 * ((6/100 : ℚ)/14) + 7/1000
          - ((6/100 : ℚ)/14) * (6/100) := by
  have h := solvedBlock_satisfies Params.default sampleIn
  have h5 := C5_Xnd_nitrogen_balance sampleBlk () h
  refine ⟨h, ?_⟩
  rw [h5]
  norm_num [sampleBlk, solvedBlock, sampleIn, Params.default]


/-- C6: configuration validation accepts `dynamic`/`has_holdup` exactly when
both equal `False` (their `In([False])` domains reject every other value,
raising a configuration error), and accepts the defaults, which are both
`False`. -/
theorem C6_config_rejects_non_false :
    (∀ dynamic has_holdup : Bool,
      dynamic ≠ false ∨ has_holdup ≠ false →
      config_accepts dynamic has_holdup = false)
    ∧ config_accepts dynamic_default has_holdup_default = true := by
  constructor
  · intro d h hd
    rcases hd with hd | hh <;>
      simp_all [config_accepts, dynamic_domain, has_holdup_domain, inDomain]
  · rfl

/-- Witness for C6: `dynamic = True` is rejected. -/
theorem C6_config_rejects_non_false_witness :
    ((true : Bool) ≠ false ∨ (false : Bool) ≠ false)
    ∧ config_accepts true false = false :=
  ⟨Or.inl (by decide),
    C6_config_rejects_non_false.1 true false (Or.inl (by decide))⟩

/-- C7: with the inlet state fully specified, the constraint system has a
solution and any two outlet states satisfying it agree on every quantity
the constraints mention — the outlet is exactly determined, i.e. zero
degrees of freedom remain. -/
theorem C7_zero_degrees_of_freedom (p : Params) (sin : StateIn) :
    (∃ sout, constrained_outlet p sin sout)
    ∧ ∀ s1 s2 : StateOut, constrained_outlet p sin s1 →
        constrained_outlet p sin s2 →
        outlet_signature s1 = outlet_signature s2 := by
  constructor
  · exact ⟨translate_state p sin, solvedBlock_satisfies p sin⟩
  · intro s1 s2 h1 h2
    obtain ⟨f1, tc1, pr1, si1, xi1, ss1, xs1, snh1, snd1, xnd1, alk1, z1⟩ := h1
    obtain ⟨f2, tc2, pr2, si2, xi2, ss2, xs2, snh2, snd2, xnd2, alk2, z2⟩ := h2
    have hf : s1.flow_vol = s2.flow_vol := Eq.trans (f1 ()) (Eq.symm (f2 ()))
    have ht : s1.temperature = s2.temperature :=
      Eq.trans (tc1 ()) (Eq.symm (tc2 ()))
    have hpr : s1.pressure = s2.pressure := Eq.trans (pr1 ()) (Eq.symm (pr2 ()))
    have halk : s1.alkalinity = s2.alkalinity :=
      Eq.trans (alk1 ()) (Eq.symm (alk2 ()))
    have hsi : s1.conc_mass_comp "S_I" = s2.conc_mass_comp "S_I" :=
      Eq.trans (si1 ()) (Eq.symm (si2 ()))
    have hxi : s1.conc_mass_comp "X_I" = s2.conc_mass_comp "X_I" :=
      Eq.trans (xi1 ()) (Eq.symm (xi2 ()))
    have hss : s1.conc_mass_comp "S_S" = s2.conc_mass_comp "S_S" :=
      Eq.trans (ss1 ()) (Eq.symm (ss2 ()))
    have hxs : s1.conc_mass_comp "X_S" = s2.conc_mass_comp "X_S" :=
      Eq.trans (xs1 ()) (Eq.symm (xs2 ()))
    have hsnh : s1.conc_mass_comp "S_NH" = s2.conc_mass_comp "S_NH" :=
      Eq.trans (snh1 ()) (Eq.symm (snh2 ()))
    have hsnd : s1.conc_mass_comp "S_ND" = s2.conc_mass_comp "S_ND" :=
      Eq.trans (snd1 ()) (Eq.symm (snd2 ()))
    have hxnd : s1.conc_mass_comp "X_ND" = s2.conc_mass_comp "X_ND" :=
      Eq.trans (xnd1 ()) (Eq.symm (xnd2 ()))
    have hbh : s1.conc_mass_comp "X_BH" = s2.conc_mass_comp "X_BH" :=
      Eq.trans (z1 () "X_BH" (by simp [zero_flow_components]))
        (Eq.symm (z2 () "X_BH" (by simp [zero_flow_components])))
    have hba : s1.conc_mass_comp "X_BA" = s2.conc_mass_comp "X_BA" :=
      Eq.trans (z1 () "X_BA" (by simp [zero_flow_components]))
        (Eq.symm (z2 () "X_BA" (by simp [zero_flow_components])))
    have hxp : s1.conc_mass_comp "X_P" = s2.conc_mass_comp "X_P" :=
      Eq.trans (z1 () "X_P" (by simp [zero_flow_components]))
        (Eq.symm (z2 () "X_P" (by simp [zero_flow_components])))
    have hso : s1.conc_mass_comp "S_O" = s2.conc_mass_comp "S_O" :=
      Eq.trans (z1 () "S_O" (by simp [zero_flow_components]))
        (Eq.symm (z2 () "S_O" (by simp [zero_flow_components])))
    have hsno : s1.conc_mass_comp "S_NO" = s2.conc_mass_comp "S_NO" :=
      Eq.trans (z1 () "S_NO" (by simp [zero_flow_components]))
        (Eq.symm (z2 () "S_NO" (by simp [zero_flow_components])))
    simp [outlet_signature, asm1_mentioned_components, hf, ht, hpr, halk,
      hsi, hxi, hss, hxs, hsnh, hsnd, hxnd, hbh, hba, hxp, hso, hsno]

/-- Witness for C7 at the default parameters and `sampleIn`. -/
theorem C7_zero_degrees_of_freedom_witness :
    constrained_outlet Params.default sampleIn
        (translate_state Params.default sampleIn)
    ∧ outlet_signature (translate_state Params.default sampleIn)
        = outlet_signature (translate_state Params.default sampleIn) :=
  ⟨solvedBlock_satisfies Params.default sampleIn,
    (C7_zero_degrees_of_freedom Params.default sampleIn).2
      (translate_state Params.default sampleIn)
      (translate_state Params.default sampleIn)
      (solvedBlock_satisfies Params.default sampleIn)
      (solvedBlock_satisfies Params.default sampleIn)⟩

/-- C8: after the two state-block initializations, if the degrees of freedom
are zero the solver is invoked exactly once and its termination status is
logged (and no warning is issued); otherwise the insufficient-constraints
warning is logged and no solve is performed (and no status is logged).
`init_build` is a total function of the solver's status — it returns
normally for every status, including failed or non-optimal ones. -/
theorem C8_solve_once_or_warn (dof : ℕ) (res : SolverStatus) :
    (dof = 0 →
      solveCount (init_build dof res) = 1
      ∧ InitEvent.log_info res ∈ init_build dof res
      ∧ InitEvent.log_warning ∉ init_build dof res)
    ∧ (dof ≠ 0 →
      solveCount (init_build dof res) = 0
      ∧ InitEvent.log_warning ∈ init_build dof res
      ∧ ∀ s, InitEvent.log_info s ∉ init_build dof res) := by
  constructor <;> intro h <;>
    simp [init_build, solveCount, h, List.count_append, List.count_cons]

/-- Witness for C8: with zero degrees of freedom and an infeasible solver
status the solve happens once and the status is logged; with one degree of
freedom the warning is logged and no solve happens. -/
theorem C8_solve_once_or_warn_witness :
    ((0 : ℕ) = 0
      ∧ solveCount (init_build 0 SolverStatus.infeasible) = 1
      ∧ InitEvent.log_info SolverStatus.infeasible
          ∈ init_build 0 SolverStatus.infeasible
      ∧ InitEvent.log_warning ∉ init_build 0 SolverStatus.infeasible)
    ∧ ((1 : ℕ) ≠ 0
      ∧ solveCount (init_build 1 SolverStatus.optimal) = 0
      ∧ InitEvent.log_warning ∈ init_build 1 SolverStatus.optimal
      ∧ ∀ s, InitEvent.log_info s ∉ init_build 1 SolverStatus.optimal) := by
  have h0 := (C8_solve_once_or_warn 0 SolverStatus.infeasible).1 rfl
  have h1 := (C8_solve_once_or_warn 1 SolverStatus.optimal).2 (by decide)
  exact ⟨⟨rfl, h0⟩, ⟨by decide, h1⟩⟩

/-- C9: every run of `init_build` releases the inlet state flags (obtained
from the `hold_state=True` inlet initialization) as its final action, in
both the solve branch and the warning branch. -/
theorem C9_release_state_always (dof : ℕ) (res : SolverStatus) :
    (init_build dof res).getLast? = some InitEvent.release_state
    ∧ InitEvent.inlet_init_hold ∈ init_build dof res := by
  by_cases h : dof = 0 <;> simp [init_build, h]

/-- C10: for every time index `t`, the `S_NH` constraint is a direct
pass-through: `S_NH(outlet) = S_IN(inlet)` exactly, with no occurrence of
`N_I`, `N_aa`, `N_bac` or `i_ec` (the parameters are arbitrary here) and
no other inlet concentration involved. -/
theorem C10_Snh_passthrough {T : Type} (blk : TranslatorBlock T) (t : T)
    (h : blk.build_constraints) :
    (blk.properties_out t).conc_mass_comp "S_NH"
      = (blk.properties_in t).conc_mass_comp "S_IN" :=
  h.2.2.2.2.2.2.2.1 t

/-- Witness for C10 at a concrete solved block. -/
theorem C10_Snh_passthrough_witness :
    sampleBlk.build_constraints
    ∧ (sampleBlk.properties_out ()).conc_mass_comp "S_NH"
        = (sampleBlk.properties_in ()).conc_mass_comp "S_IN" :=
  ⟨solvedBlock_satisfies Params.default sampleIn,
    C10_Snh_passthrough sampleBlk ()
      (solvedBlock_satisfies Params.default sampleIn)⟩
